import Mathlib

/-!
Verification of the DataVex enterprise-intelligence pipeline (`agents.py`).

The pipeline is shallowly embedded: the two external effects (the HTTP
fetch plus HTML parse, and the news-search call) are passed in as explicit
oracles of type `Except String _`, so that exception handling in the source
becomes a `match` on the result of the oracle.  Everything else is pure and is
translated function by function.
-/

namespace DataVex

/-- Result of a successful HTTP GET plus HTML parse (`requests.get` followed
by `BeautifulSoup`): the status code, the raw visible text (before the
`.lower()` applied by the recon agent), the document title if the page has a
`<title>` tag, and the serialized response headers. -/
structure FetchResult where
  status_code : Nat
  rawText : String
  title : Option String
  headers : String
  deriving DecidableEq, Repr

/-- The dictionary returned by `recon_agent`. -/
structure RawPage where
  status : Nat
  title : String
  text : String
  headers : String
  deriving DecidableEq, Repr

/-- The dictionary returned by `growth_agent`. -/
structure GrowthSignals where
  hiring_mentions : Nat
  scale_mentions : Nat
  deriving DecidableEq, Repr

/-- The dictionary returned by `fiscal_agent`. -/
structure FiscalSignals where
  funding : Bool
  layoffs : Bool
  deriving DecidableEq, Repr

/-- The dictionary returned by `synthesis_agent`. -/
structure SynthesisResult where
  score : Int
  recommendation : String
  why_now : String
  deriving DecidableEq, Repr

/-- The dictionary returned by `outreach_agent` on the non-skip path. -/
structure OutreachDraft where
  target_role : String
  angle : String
  draft_email : String
  deriving DecidableEq, Repr

/-- The shipped configuration constant: `SERPAPI_KEY = ""  # Optional`. -/
def SERPAPI_KEY : String := ""

/-- The Python `pat in s` substring test, over character lists. -/
def occursIn (pat : List Char) : List Char → Bool
  | [] => pat.isEmpty
  | c :: rest => pat.isPrefixOf (c :: rest) || occursIn pat rest

/-- The Python `pat in s` substring test on strings. -/
def occursInStr (pat s : String) : Bool :=
  occursIn pat.toList s.toList

/-- The Python `s.startswith(p)` test, over the character lists of the strings. -/
def startsWithStr (s p : String) : Bool :=
  p.toList.isPrefixOf s.toList

/-- At the head of `s`, the length of the first alternative of `alts` (in
pattern order) that matches, in the order the Python regex engine tries them. -/
def matchAt (alts : List (List Char)) (s : List Char) : Option Nat :=
  alts.findSome? fun a => if a.isPrefixOf s then some a.length else none

/-- Scanning worker for `countMatches`; the fuel (always instantiated with
the length of the text, which bounds the number of scan steps) keeps the
recursion structural. -/
def countMatchesAux (alts : List (List Char)) : Nat → List Char → Nat
  | 0, _ => 0
  | _, [] => 0
  | fuel + 1, c :: cs =>
    match matchAt alts (c :: cs) with
    | some n => countMatchesAux alts fuel (List.drop (n - 1) cs) + 1
    | none => countMatchesAux alts fuel cs

/-- The value `len(re.findall(alt1|alt2|..., text))`: the number of non-overlapping
matches under leftmost scanning, each alternative tried in pattern order,
the scan resuming right after each match. -/
def countMatches (alts : List (List Char)) (text : List Char) : Nat :=
  countMatchesAux alts text.length text

/-- Lines 28–31 of `recon_agent`: prepend `https://` unless the input starts
with the literal text `"http"`. -/
def recon_url (domain : String) : String :=
  if startsWithStr domain "http" then domain else "https://" ++ domain

/-- Modelled from the spec: the input "has a scheme prefix", i.e. it begins
with an explicit URL scheme (`http://` or `https://`, the schemes an HTTP
GET can use).  Stated from the wording of the spec so that it can be compared
with the `startswith("http")` check the code actually performs. -/
def hasSchemePrefixSpec (s : String) : Bool :=
  startsWithStr s "http://" || startsWithStr s "https://"

/-- The function `recon_agent(domain, trace)`.  The `world` oracle stands for
`requests.get` + `BeautifulSoup`: `Except.error e` is any exception raised
inside the `try` block (network error, timeout, malformed response), in
which case the agent swallows it and returns the sentinel page.  The
function is total: no error value escapes to the caller. -/
def recon_agent (domain : String) (world : String → Except String FetchResult)
    (trace : List String) : RawPage × List String :=
  let trace1 := trace ++ ["Recon Agent: Starting website scan"]
  let url := recon_url domain
  match world url with
  | Except.ok response =>
      let text := response.rawText.toLower
      let title :=
        match response.title with
        | some t => t.trim
        | none => "Unknown"
      let sc := response.status_code
      let trace2 := trace1 ++ [s!"Recon Agent: Status {sc}"]
      (⟨response.status_code, title, text, response.headers.toLower⟩, trace2)
  | Except.error e =>
      (⟨0, "Unknown", "", ""⟩, trace1 ++ [s!"Recon Agent: Failed ({e})"])

/-- The function `infra_agent(recon, trace)`. -/
def infra_agent (recon : RawPage) (trace : List String) :
    List String × List String :=
  let trace1 := trace ++ ["Infrastructure Agent: Detecting cloud stack"]
  let text := recon.text
  let signals : List String :=
    (if ["aws", "gcp", "azure", "kubernetes", "docker"].any
        (fun k => occursInStr k text) then ["Explicit Cloud Stack"] else [])
    ++
    (if ["api", "platform", "payment", "testing", "developer", "cloud"].any
        (fun k => occursInStr k text) then ["Inferred Cloud-Heavy SaaS"] else [])
  let trace2 := trace1 ++ [s!"Infrastructure Agent: Found {signals}"]
  (signals, trace2)

/-- The function `growth_agent(recon, trace)`. -/
def growth_agent (recon : RawPage) (trace : List String) :
    GrowthSignals × List String :=
  let trace1 := trace ++ ["Growth Agent: Checking hiring & expansion signals"]
  let text := recon.text
  let hiring_mentions :=
    countMatches ["hiring".toList, "careers".toList, "jobs".toList,
      "join us".toList] text.toList
  let scale_mentions :=
    countMatches ["growing".toList, "expanding".toList, "scale".toList,
      "rapid growth".toList] text.toList
  let trace2 :=
    trace1 ++ [s!"Growth Agent: hiring={hiring_mentions}, scale={scale_mentions}"]
  (⟨hiring_mentions, scale_mentions⟩, trace2)

/-- The function `fiscal_agent(domain, trace)`, with the configuration key made an
explicit argument (the pipeline passes `SERPAPI_KEY`) and the news-search
call (`GoogleSearch(params)` down to the extracted list of result titles)
an explicit oracle: `Except.error` is any exception raised in the `try`
block. -/
def fiscal_agent (key domain : String) (news : Except String (List String))
    (trace : List String) : FiscalSignals × List String :=
  let trace1 := trace ++ ["Fiscal Agent: Checking funding/layoff signals"]
  if key = "" then
    (⟨false, false⟩, trace1 ++ ["Fiscal Agent: SerpAPI not configured"])
  else
    match news with
    | Except.error _ =>
        (⟨false, false⟩, trace1 ++ ["Fiscal Agent: News fetch failed"])
    | Except.ok titles =>
        let funding := titles.any fun n => occursInStr "funding" n.toLower
        let layoffs := titles.any fun n => occursInStr "layoff" n.toLower
        let trace2 :=
          trace1 ++ [s!"Fiscal Agent: funding={funding}, layoffs={layoffs}"]
        (⟨funding, layoffs⟩, trace2)

/-- Lines 136–158 of `synthesis_agent`: the sequential `score += ...`
accumulation before the `min(score, 100)` clamp. -/
def synthesis_raw_score (infra : List String) (growth : GrowthSignals)
    (fiscal : FiscalSignals) : Int :=
  let score0 : Int := 0
  let score1 := if infra = [] then score0 else score0 + 25
  let score2 :=
    if growth.hiring_mentions > 3 then score1 + 25
    else if growth.hiring_mentions > 0 then score1 + 15
    else score1
  let score3 := if growth.scale_mentions > 2 then score2 + 15 else score2
  let score4 := if fiscal.funding then score3 + 20 else score3
  let score5 := if fiscal.layoffs then score4 + 10 else score4
  let score6 :=
    if "Inferred Cloud-Heavy SaaS" ∈ infra then score5 + 10 else score5
  score6

/-- The function `synthesis_agent(infra, growth, fiscal, trace)`. -/
def synthesis_agent (infra : List String) (growth : GrowthSignals)
    (fiscal : FiscalSignals) (trace : List String) :
    SynthesisResult × List String :=
  let trace1 := trace ++ ["Synthesis Agent: Calculating strategic scores"]
  let score := min (synthesis_raw_score infra growth fiscal) 100
  let recommendation := if score ≥ 50 then "YES" else "NO"
  let trace2 :=
    trace1 ++ [s!"Synthesis Agent: Score={score}, Verdict={recommendation}"]
  let why0 : List String := []
  let why1 :=
    if growth.hiring_mentions > 0 then why0 ++ ["active hiring surge"] else why0
  let why2 := if infra = [] then why1 else why1 ++ ["cloud-heavy architecture"]
  let why3 := if fiscal.funding then why2 ++ ["recent funding event"] else why2
  ({ score := score
     recommendation := recommendation
     why_now :=
       if why3 = [] then "limited timing signals"
       else String.intercalate ", " why3 }, trace2)

/-- The email template rendered by `outreach_agent`, with the surrounding
whitespace stripped (`email.strip()`). -/
def outreach_email (domain : String) (synthesis : SynthesisResult) : String :=
  ("\nSubject: Supporting " ++ domain ++ "\x27s Infrastructure at Scale\n\n" ++
   "Hi CTO,\n\n" ++
   "We noticed signs of " ++ synthesis.why_now ++ " at " ++ domain ++ ".\n\n" ++
   "As engineering teams scale, cloud costs and data complexity grow rapidly.\n" ++
   "DataVex helps teams optimize infrastructure efficiency, reduce cloud waste,\n" ++
   "and improve data pipeline reliability without slowing innovation.\n\n" ++
   "Would you be open to a 20-minute discussion this week?\n\n" ++
   "Best,\nDataVex Team\n").trim

/-- The function `outreach_agent(domain, synthesis, trace)`; `none` models the Python
`return None` on the skip path. -/
def outreach_agent (domain : String) (synthesis : SynthesisResult)
    (trace : List String) : Option OutreachDraft × List String :=
  if synthesis.recommendation = "NO" then
    (none, trace ++ ["Outreach Agent: Skipped"])
  else
    (some ⟨"CTO", "Infrastructure Scale Optimization",
        outreach_email domain synthesis⟩,
     trace ++ ["Outreach Agent: Generating CTO-focused pitch"])

/-- The `company_dossier` section of the final report. -/
structure CompanyDossier where
  domain : String
  title : String
  infrastructure : List String
  growth_signals : GrowthSignals
  fiscal_signals : FiscalSignals
  analysis_timestamp : String
  deriving DecidableEq, Repr

/-- The `strategic_analysis` section of the final report. -/
structure StrategicAnalysis where
  why_now : String
  lead_score : Int
  deriving DecidableEq, Repr

/-- The `verdict` section of the final report.  `confidence` is
`round(score / 100, 2)`, modelled as the exact rational `score / 100`
(for an integer score in `[0, 100]` the quotient already has at most two
decimal places, so the rounding is the identity). -/
structure Verdict where
  recommendation : String
  confidence : ℚ
  deriving DecidableEq, Repr

/-- The report assembled by `run_intelligence`. -/
structure Report where
  company_dossier : CompanyDossier
  strategic_analysis : StrategicAnalysis
  verdict : Verdict
  outreach_strategy : Option OutreachDraft
  agent_trace : List String
  deriving DecidableEq, Repr

/-- The function `run_intelligence(domain)`: the five agents run in sequence over a fresh
trace.  `world` and `news` are the two external oracles, and `now` stands
for `datetime.now().isoformat()`. -/
def run_intelligence (domain : String)
    (world : String → Except String FetchResult)
    (news : Except String (List String)) (now : String) : Report :=
  let trace : List String := []
  let reconR := recon_agent domain world trace
  let infraR := infra_agent reconR.1 reconR.2
  let growthR := growth_agent reconR.1 infraR.2
  let fiscalR := fiscal_agent SERPAPI_KEY domain news growthR.2
  let synthR := synthesis_agent infraR.1 growthR.1 fiscalR.1 fiscalR.2
  let outreachR := outreach_agent domain synthR.1 synthR.2
  { company_dossier :=
      { domain := domain
        title := reconR.1.title
        infrastructure := infraR.1
        growth_signals := growthR.1
        fiscal_signals := fiscalR.1
        analysis_timestamp := now }
    strategic_analysis :=
      { why_now := synthR.1.why_now
        lead_score := synthR.1.score }
    verdict :=
      { recommendation := synthR.1.recommendation
        confidence := (synthR.1.score : ℚ) / 100 }
    outreach_strategy := outreachR.1
    agent_trace := outreachR.2 }

/-! ## Basic unfolding lemmas for the synthesis agent -/

theorem score_def (i : List String) (g : GrowthSignals) (f : FiscalSignals)
    (t : List String) :
    (synthesis_agent i g f t).1.score = min (synthesis_raw_score i g f) 100 := rfl

theorem rec_def (i : List String) (g : GrowthSignals) (f : FiscalSignals)
    (t : List String) :
    (synthesis_agent i g f t).1.recommendation =
      if min (synthesis_raw_score i g f) 100 ≥ 50 then "YES" else "NO" := rfl

theorem raw_score_eq_sum (i : List String) (g : GrowthSignals)
    (f : FiscalSignals) :
    synthesis_raw_score i g f =
      (if i = [] then (0 : Int) else 25) +
      (if g.hiring_mentions > 3 then 25
       else if g.hiring_mentions > 0 then 15 else 0) +
      (if g.scale_mentions > 2 then 15 else 0) +
      (if f.funding then 20 else 0) +
      (if f.layoffs then 10 else 0) +
      (if "Inferred Cloud-Heavy SaaS" ∈ i then 10 else 0) := by
  unfold synthesis_raw_score
  split_ifs <;> decide

theorem raw_score_nonneg (i : List String) (g : GrowthSignals)
    (f : FiscalSignals) : 0 ≤ synthesis_raw_score i g f := by
  rw [raw_score_eq_sum]
  split_ifs <;> norm_num

theorem synthesis_rec_cases (i : List String) (g : GrowthSignals)
    (f : FiscalSignals) (t : List String) :
    (synthesis_agent i g f t).1.recommendation = "YES" ∨
      (synthesis_agent i g f t).1.recommendation = "NO" := by
  rw [rec_def]
  split_ifs
  · exact Or.inl rfl
  · exact Or.inr rfl

/-! ## Claims about the synthesis scorer -/

/-- C1: for every infra label list, growth counts and fiscal flags, the
synthesis score is the clamp at 100 of exactly these bonuses: +25 for a
non-empty infra list; +25 if `hiring_mentions > 3`, else +15 if
`hiring_mentions > 0` (mutually exclusive); +15 if `scale_mentions > 2`;
+20 for `funding`; +10 for `layoffs`; +10 if `"Inferred Cloud-Heavy SaaS"`
is one of the infra labels (additive to the generic infra bonus).  In
particular `infra = ["Inferred Cloud-Heavy SaaS"]`, `hiring_mentions = 1`,
`scale_mentions = 3`, `funding = true`, `layoffs = false` scores 85. -/
theorem synthesis_score_clamped_bonus_sum (i : List String)
    (g : GrowthSignals) (f : FiscalSignals) (t : List String) :
    ((synthesis_agent i g f t).1.score =
      min ((if i = [] then (0 : Int) else 25) +
           (if g.hiring_mentions > 3 then 25
            else if g.hiring_mentions > 0 then 15 else 0) +
           (if g.scale_mentions > 2 then 15 else 0) +
           (if f.funding then 20 else 0) +
           (if f.layoffs then 10 else 0) +
           (if "Inferred Cloud-Heavy SaaS" ∈ i then 10 else 0)) 100)
    ∧ (synthesis_agent ["Inferred Cloud-Heavy SaaS"] ⟨1, 3⟩ ⟨true, false⟩
        []).1.score = 85 :=
  ⟨by rw [score_def, raw_score_eq_sum], by decide⟩

/-- C2: for all signal inputs the synthesis score is an integer in
`[0, 100]`; the raw weighted sum can reach 105 (25+25+15+20+10+10), and on
such an input the clamp brings the score down to 100. -/
theorem synthesis_score_in_range :
    (∀ (i : List String) (g : GrowthSignals) (f : FiscalSignals)
       (t : List String),
       0 ≤ (synthesis_agent i g f t).1.score ∧
         (synthesis_agent i g f t).1.score ≤ 100)
    ∧ synthesis_raw_score ["Explicit Cloud Stack", "Inferred Cloud-Heavy SaaS"]
        ⟨10, 5⟩ ⟨true, true⟩ = 105
    ∧ (synthesis_agent ["Explicit Cloud Stack", "Inferred Cloud-Heavy SaaS"]
        ⟨10, 5⟩ ⟨true, true⟩ []).1.score = 100 := by
  refine ⟨fun i g f t => ?_, by decide, by decide⟩
  rw [score_def]
  exact ⟨le_min (raw_score_nonneg i g f) (by norm_num), min_le_right _ _⟩

/-- C3: the recommendation is `"YES"` iff the clamped score is at least 50;
the boundary score 50 (e.g. `["Explicit Cloud Stack"]` with 5 hiring
mentions) yields `"YES"`; and the verdict is a function of the score alone:
two inputs with equal scores get equal recommendations. -/
theorem recommendation_iff_score_ge_50 :
    (∀ (i : List String) (g : GrowthSignals) (f : FiscalSignals)
       (t : List String),
       (synthesis_agent i g f t).1.recommendation = "YES" ↔
         50 ≤ (synthesis_agent i g f t).1.score)
    ∧ ((synthesis_agent ["Explicit Cloud Stack"] ⟨5, 0⟩ ⟨false, false⟩
          []).1.score = 50 ∧
       (synthesis_agent ["Explicit Cloud Stack"] ⟨5, 0⟩ ⟨false, false⟩
          []).1.recommendation = "YES")
    ∧ (∀ (i : List String) (g : GrowthSignals) (f : FiscalSignals)
         (t : List String) (i2 : List String) (g2 : GrowthSignals)
         (f2 : FiscalSignals) (t2 : List String),
         (synthesis_agent i g f t).1.score =
           (synthesis_agent i2 g2 f2 t2).1.score →
         (synthesis_agent i g f t).1.recommendation =
           (synthesis_agent i2 g2 f2 t2).1.recommendation) := by
  refine ⟨fun i g f t => ?_, ⟨by decide, by decide⟩,
    fun i g f t i2 g2 f2 t2 h => ?_⟩
  · rw [rec_def, score_def]
    split_ifs with h
    · exact iff_of_true rfl (by simpa [ge_iff_le] using h)
    · exact iff_of_false (by decide) (by simpa [ge_iff_le] using h)
  · rw [score_def, score_def] at h
    rw [rec_def, rec_def, h]

/-- Witness for the C3 theorem at a concrete input: the scenario-1 input has
score exactly 50 and the iff of the theorem forces the verdict `"YES"`. -/
theorem recommendation_iff_score_ge_50_witness :
    (synthesis_agent ["Explicit Cloud Stack"] ⟨5, 0⟩ ⟨false, false⟩
      []).1.recommendation = "YES" :=
  (recommendation_iff_score_ge_50.1 ["Explicit Cloud Stack"] ⟨5, 0⟩
    ⟨false, false⟩ []).mpr (by decide)

/-- C9: `why_now` is the `", "`-join of exactly the gated phrases, in the
fixed order hiring / infra / funding, with the literal fallback
`"limited timing signals"` when no gate holds. -/
theorem why_now_phrase_list :
    (∀ (i : List String) (g : GrowthSignals) (f : FiscalSignals)
       (t : List String),
       (synthesis_agent i g f t).1.why_now =
         if ((if g.hiring_mentions > 0 then ["active hiring surge"] else []) ++
             (if i = [] then [] else ["cloud-heavy architecture"]) ++
             (if f.funding then ["recent funding event"] else [])) = [] then
           "limited timing signals"
         else
           String.intercalate ", "
             ((if g.hiring_mentions > 0 then ["active hiring surge"] else []) ++
              (if i = [] then [] else ["cloud-heavy architecture"]) ++
              (if f.funding then ["recent funding event"] else [])))
    ∧ (synthesis_agent [] ⟨0, 0⟩ ⟨false, false⟩ []).1.why_now =
        "limited timing signals"
    ∧ (synthesis_agent ["Inferred Cloud-Heavy SaaS"] ⟨1, 0⟩ ⟨true, false⟩
        []).1.why_now =
        "active hiring surge, cloud-heavy architecture, recent funding event" := by
  refine ⟨fun i g f t => ?_, by decide, by decide⟩
  simp only [synthesis_agent]
  split_ifs <;> simp_all

/-- C10: in the shipped configuration the API key is the empty string, the
fiscal agent therefore always reports `{funding := false, layoffs := false}`,
and with those flags the score never exceeds 75, the `min(score, 100)` clamp
is the identity, and 75 is attained. -/
theorem shipped_config_caps_score_at_75 :
    SERPAPI_KEY = ""
    ∧ (∀ (domain : String) (news : Except String (List String))
         (trace : List String),
         (fiscal_agent SERPAPI_KEY domain news trace).1 = ⟨false, false⟩)
    ∧ (∀ (i : List String) (g : GrowthSignals) (t : List String),
         (synthesis_agent i g ⟨false, false⟩ t).1.score ≤ 75)
    ∧ (∀ (i : List String) (g : GrowthSignals) (t : List String),
         (synthesis_agent i g ⟨false, false⟩ t).1.score =
           synthesis_raw_score i g ⟨false, false⟩)
    ∧ (synthesis_agent ["Inferred Cloud-Heavy SaaS"] ⟨4, 3⟩ ⟨false, false⟩
        []).1.score = 75 := by
  have hle : ∀ (i : List String) (g : GrowthSignals),
      synthesis_raw_score i g ⟨false, false⟩ ≤ 75 := by
    intro i g
    rw [raw_score_eq_sum]
    split_ifs <;> simp_all
  have hid : ∀ (i : List String) (g : GrowthSignals) (t : List String),
      (synthesis_agent i g ⟨false, false⟩ t).1.score =
        synthesis_raw_score i g ⟨false, false⟩ := by
    intro i g t
    rw [score_def]
    exact min_eq_left (le_trans (hle i g) (by norm_num))
  refine ⟨rfl, fun domain news trace => rfl, fun i g t => ?_, hid, by decide⟩
  rw [hid i g t]
  exact hle i g

/-! ## Claims about the outreach and fiscal agents -/

/-- C4: for every domain and every synthesis result the pipeline can
produce, the outreach agent returns a draft
`{target_role := "CTO", angle := "Infrastructure Scale Optimization", ...}`
iff the recommendation is `"YES"`; on `"NO"` it returns `none` and appends
the skip entry to the trace. -/
theorem outreach_draft_iff_yes (domain : String) (i : List String)
    (g : GrowthSignals) (f : FiscalSignals) (t t2 : List String)
    (syn : SynthesisResult) (hsyn : syn = (synthesis_agent i g f t).1) :
    ((outreach_agent domain syn t2).1.isSome = true ↔
      syn.recommendation = "YES")
    ∧ (syn.recommendation = "YES" →
        outreach_agent domain syn t2 =
          (some ⟨"CTO", "Infrastructure Scale Optimization",
              outreach_email domain syn⟩,
           t2 ++ ["Outreach Agent: Generating CTO-focused pitch"]))
    ∧ (syn.recommendation = "NO" →
        outreach_agent domain syn t2 =
          (none, t2 ++ ["Outreach Agent: Skipped"])) := by
  have hcases : syn.recommendation = "YES" ∨ syn.recommendation = "NO" :=
    hsyn ▸ synthesis_rec_cases i g f t
  refine ⟨?_, fun h => ?_, fun h => ?_⟩
  · unfold outreach_agent
    rcases hcases with h | h <;> simp [h]
  · unfold outreach_agent
    simp [h]
  · unfold outreach_agent
    simp [h]

/-- Witness for the C4 theorem: on the all-default input the synthesis verdict
is `"NO"`, and the outreach agent skips with the skip trace entry. -/
theorem outreach_draft_iff_yes_witness :
    outreach_agent "example.com" (synthesis_agent [] ⟨0, 0⟩ ⟨false, false⟩
      []).1 [] = (none, ["Outreach Agent: Skipped"]) :=
  (outreach_draft_iff_yes "example.com" [] ⟨0, 0⟩ ⟨false, false⟩ [] []
    (synthesis_agent [] ⟨0, 0⟩ ⟨false, false⟩ []).1 rfl).2.2 (by decide)

/-- C5: when the configured key is the empty string the fiscal agent
returns `{funding := false, layoffs := false}` with the
missing-configuration trace note, and its result does not depend on the
external news oracle at all (no external query is issued). -/
theorem fiscal_agent_no_key_default (key domain : String)
    (news news2 : Except String (List String)) (trace : List String)
    (h : key = "") :
    fiscal_agent key domain news trace =
      (⟨false, false⟩,
       trace ++ ["Fiscal Agent: Checking funding/layoff signals",
         "Fiscal Agent: SerpAPI not configured"])
    ∧ fiscal_agent key domain news trace =
        fiscal_agent key domain news2 trace := by
  subst h
  refine ⟨?_, rfl⟩
  unfold fiscal_agent
  simp

/-- Witness for the C5 theorem at a concrete domain and a news oracle whose
titles would otherwise set the funding flag. -/
theorem fiscal_agent_no_key_default_witness :
    fiscal_agent "" "example.com" (Except.ok ["Acme raises funding"]) [] =
      (⟨false, false⟩,
       ["Fiscal Agent: Checking funding/layoff signals",
        "Fiscal Agent: SerpAPI not configured"]) :=
  (fiscal_agent_no_key_default "" "example.com"
    (Except.ok ["Acme raises funding"]) (Except.error "down") [] rfl).1

/-! ## Claims about the page fetcher -/

/-- C6: whenever the fetch-and-parse oracle fails, the recon agent swallows
the failure and returns exactly the sentinel page
`{status := 0, title := "Unknown", text := "", headers := ""}` together
with a trace entry naming the failure, and the pipeline still produces the
final report, with the degraded dossier, a `"NO"` verdict and no outreach
draft. -/
theorem recon_failure_sentinel (domain : String)
    (world : String → Except String FetchResult) (trace : List String)
    (e : String) (news : Except String (List String)) (now : String)
    (h : world (recon_url domain) = Except.error e) :
    recon_agent domain world trace =
      (⟨0, "Unknown", "", ""⟩,
       trace ++ ["Recon Agent: Starting website scan",
         s!"Recon Agent: Failed ({e})"])
    ∧ (run_intelligence domain world news now).company_dossier =
        ⟨domain, "Unknown", [], ⟨0, 0⟩, ⟨false, false⟩, now⟩
    ∧ (run_intelligence domain world news now).verdict.recommendation = "NO"
    ∧ (run_intelligence domain world news now).outreach_strategy = none := by
  have h1 : recon_agent domain world trace =
      (⟨0, "Unknown", "", ""⟩,
       trace ++ ["Recon Agent: Starting website scan",
         s!"Recon Agent: Failed ({e})"]) := by
    simp [recon_agent, h]
  have h0 : recon_agent domain world [] =
      (⟨0, "Unknown", "", ""⟩,
       ["Recon Agent: Starting website scan",
        s!"Recon Agent: Failed ({e})"]) := by
    simp [recon_agent, h]
  refine ⟨h1, ?_, ?_, ?_⟩ <;>
    · simp only [run_intelligence]
      rw [h0]
      try rfl

/-- Witness for the C6 theorem: a concrete always-failing world. -/
theorem recon_failure_sentinel_witness :
    recon_agent "example.com" (fun _ => Except.error "timeout") [] =
      (⟨0, "Unknown", "", ""⟩,
       ["Recon Agent: Starting website scan",
        "Recon Agent: Failed (timeout)"])
    ∧ (run_intelligence "example.com" (fun _ => Except.error "timeout")
        (Except.ok []) "2026-01-01").outreach_strategy = none :=
  ⟨(recon_failure_sentinel "example.com" (fun _ => Except.error "timeout")
      [] "timeout" (Except.ok []) "2026-01-01" rfl).1,
   (recon_failure_sentinel "example.com" (fun _ => Except.error "timeout")
      [] "timeout" (Except.ok []) "2026-01-01" rfl).2.2.2⟩

/-- C7 counterexample: on a failing fetch the recon agent appends two trace
entries (the unconditional start entry plus the failure entry), not one as
the claim states. -/
theorem recon_failure_trace_count_counterexample :
    ((recon_agent "example.com" (fun _ => Except.error "timeout") []).2).length
      = 2
    ∧ ((recon_agent "example.com" (fun _ => Except.error "timeout")
        []).2).length ≠ 1 := by
  decide

/-- C7 (amended): the recon agent appends exactly two trace entries on
success (start, status) and exactly two on failure (start, failure note). -/
theorem recon_trace_append_counts :
    (∀ (domain : String) (world : String → Except String FetchResult)
       (trace : List String) (r : FetchResult),
       world (recon_url domain) = Except.ok r →
       ((recon_agent domain world trace).2).length = trace.length + 2)
    ∧ (∀ (domain : String) (world : String → Except String FetchResult)
         (trace : List String) (e : String),
         world (recon_url domain) = Except.error e →
         ((recon_agent domain world trace).2).length = trace.length + 2) := by
  constructor <;>
    · intro domain world trace x h
      simp [recon_agent, h]

/-- Witness for the amended C7 theorem: one concrete successful fetch and one
concrete failing fetch, each appending two entries to an empty trace. -/
theorem recon_trace_append_counts_witness :
    ((recon_agent "example.com"
        (fun _ => Except.ok ⟨200, "Hello", some "Example", "server: x"⟩)
        []).2).length = 2
    ∧ ((recon_agent "example.com" (fun _ => Except.error "timeout")
        []).2).length = 2 :=
  ⟨recon_trace_append_counts.1 "example.com"
      (fun _ => Except.ok ⟨200, "Hello", some "Example", "server: x"⟩) []
      ⟨200, "Hello", some "Example", "server: x"⟩ rfl,
   recon_trace_append_counts.2 "example.com"
      (fun _ => Except.error "timeout") [] "timeout" rfl⟩

/-- C8 counterexample: `"httpbin.org"` lacks a scheme prefix, yet the code
does not prepend `https://` — it issues the GET against the input
unchanged, because the check is `startswith("http")`, not a scheme test. -/
theorem recon_url_scheme_counterexample :
    hasSchemePrefixSpec "httpbin.org" = false
    ∧ recon_url "httpbin.org" = "httpbin.org"
    ∧ "httpbin.org" ≠ "https://" ++ "httpbin.org" := by
  decide

/-- C8 (amended): the GET URL is the input unchanged when the input starts
with the literal text `"http"` (in particular whenever it has a real
`http://` or `https://` scheme prefix), and `https://` prepended to the
input otherwise; a scheme-less input such as `"httpbin.org"` that happens
to start with `"http"` is therefore used unchanged. -/
theorem recon_url_amended :
    (∀ s : String,
       recon_url s = if startsWithStr s "http" then s else "https://" ++ s)
    ∧ (∀ s : String, hasSchemePrefixSpec s = true → recon_url s = s)
    ∧ (∀ s : String, startsWithStr s "http" = false →
        recon_url s = "https://" ++ s)
    ∧ recon_url "httpbin.org" = "httpbin.org" := by
  refine ⟨fun s => rfl, fun s h => ?_, fun s h => ?_, by decide⟩
  · have hs : startsWithStr s "http" = true := by
      unfold hasSchemePrefixSpec at h
      unfold startsWithStr at h ⊢
      rw [Bool.or_eq_true] at h
      simp only [List.isPrefixOf_iff_prefix] at h ⊢
      rcases h with h | h
      · exact List.IsPrefix.trans ⟨"://".toList, rfl⟩ h
      · exact List.IsPrefix.trans ⟨"s://".toList, rfl⟩ h
    unfold recon_url
    rw [hs]
    simp
  · unfold recon_url
    rw [h]
    simp

/-- Witness for the amended C8 theorem: a scheme-prefixed input kept
unchanged and a plain domain that gets `https://` prepended. -/
theorem recon_url_amended_witness :
    recon_url "https://example.com" = "https://example.com"
    ∧ recon_url "example.com" = "https://" ++ "example.com" :=
  ⟨recon_url_amended.2.1 "https://example.com" (by decide),
   recon_url_amended.2.2.1 "example.com" (by decide)⟩

end DataVex
